import Mathlib

/-!
Verification of the mindnlp model-definition modules (CLVP, Llava config,
Musicgen-Melody feature extractor) against their natural-language
specification.  Tensors are shallowly embedded as shapes together with
rational-valued index functions; fallible python code is embedded as
Except-valued functions; the one piece of mutable state (the rotary
positional-embedding cache) is embedded as explicit state passing.
-/

/-- A tensor of arbitrary rank: a shape together with an index function into
rational entries.  Only the parts of a tensor that the verified code inspects
(shapes, individual entries) are modelled. -/
structure NDTensor where
  shape : List Nat
  data : List Nat → ℚ

/-- A rank-two tensor with explicit dimensions. -/
structure Matrix2 where
  rows : Nat
  cols : Nat
  data : Nat → Nat → ℚ

/-- A rank-three tensor with explicit dimensions `(batch, d1, d2)`. -/
structure Tensor3 where
  batch : Nat
  d1 : Nat
  d2 : Nat
  data : Nat → Nat → Nat → ℚ

/-- Whether a fallible computation raised an error. -/
def errRaised {α : Type} (e : Except String α) : Bool :=
  match e with
  | Except.error _ => true
  | Except.ok _ => false

/-- The input check at the start of ClvpConditioningEncoder.forward
(modeling_clvp.py lines 668-677): both `input_ids` and `inputs_embeds`
present or both absent raise a ValueError, otherwise `batch_size` and
`seq_length` are read off the provided tensor. -/
def ClvpConditioningEncoder.forwardInputCheck
    (input_ids inputs_embeds : Option NDTensor) : Except String (Nat × Nat) :=
  match input_ids, inputs_embeds with
  | some _, some _ =>
      Except.error "You cannot specify both input_ids and inputs_embeds at the same time"
  | some ids, none =>
      Except.ok (ids.shape.getD 0 0, ids.shape.getD 1 0)
  | none, some emb =>
      Except.ok (emb.shape.getD 0 0, emb.shape.getD 1 0)
  | none, none =>
      Except.error "You have to specify either input_ids or inputs_embeds"

/-- The input check at the start of ClvpEncoder.forward (modeling_clvp.py
lines 870-883).  With `input_ids` the input shape is the full shape; with
`inputs_embeds` it is the shape with the hidden dimension dropped. -/
def ClvpEncoder.forwardInputCheck
    (input_ids inputs_embeds : Option NDTensor) : Except String (List Nat) :=
  match input_ids, inputs_embeds with
  | some _, some _ =>
      Except.error "You cannot specify both input_ids and inputs_embeds at the same time"
  | some ids, none =>
      Except.ok ids.shape
  | none, some emb =>
      Except.ok emb.shape.dropLast
  | none, none =>
      Except.error "You have to specify either input_ids or inputs_embeds"

/-- The input check at the start of ClvpDecoder.forward (modeling_clvp.py
lines 1005-1019); same structure as the encoder check. -/
def ClvpDecoder.forwardInputCheck
    (input_ids inputs_embeds : Option NDTensor) : Except String (List Nat) :=
  match input_ids, inputs_embeds with
  | some _, some _ =>
      Except.error "You cannot specify both input_ids and inputs_embeds at the same time"
  | some ids, none =>
      Except.ok ids.shape
  | none, some emb =>
      Except.ok emb.shape.dropLast
  | none, none =>
      Except.error "You have to specify either input_ids or inputs_embeds"

/-- The fields that LlavaConfig stores directly in its constructor
(configuration_llava.py lines 119-136).  The vision and text sub-configs are
produced by CONFIG_MAPPING code outside the verified sources and are not
modelled. -/
structure LlavaConfig where
  ignore_index : Int
  image_token_index : Int
  projector_hidden_act : String
  vision_feature_select_strategy : String
  vision_feature_layer : Int

/-- LlavaConfig construction (configuration_llava.py lines 119-136): the
scalar fields are stored, then the vision_feature_select_strategy value is
validated against the list of admissible values and stored unchanged. -/
def LlavaConfig.construct (ignore_index image_token_index : Int)
    (projector_hidden_act vision_feature_select_strategy : String)
    (vision_feature_layer : Int) : Except String LlavaConfig :=
  if vision_feature_select_strategy ∉ (["default", "full"] : List String) then
    Except.error "vision_feature_select_strategy should be one of default, full."
  else
    Except.ok
      { ignore_index := ignore_index
        image_token_index := image_token_index
        projector_hidden_act := projector_hidden_act
        vision_feature_select_strategy := vision_feature_select_strategy
        vision_feature_layer := vision_feature_layer }

/-- The halving loop of ClvpConditioningEncoder.compute_groupnorm_groups
(modeling_clvp.py lines 649-650): while channels is not divisible by groups,
groups is halved.  The zero case is unreachable from the starting values used
by the method (8, 16 or 32), since every number is divisible by 1; python
would raise a ZeroDivisionError there. -/
def groupnormHalve (channels : Nat) : Nat → Nat
  | 0 => 0
  | g + 1 =>
      if channels % (g + 1) = 0 then g + 1
      else groupnormHalve channels ((g + 1) / 2)

/-- ClvpConditioningEncoder.compute_groupnorm_groups (modeling_clvp.py lines
639-658): pick the starting group count from the channel count, halve until
it divides channels, and raise a ValueError when the result is at most 2. -/
def compute_groupnorm_groups (channels : Nat) (groups : Nat) : Except String Nat :=
  let g0 := if channels ≤ 16 then 8 else if channels ≤ 64 then 16 else groups
  let g := groupnormHalve channels g0
  if g ≤ 2 then
    Except.error "Number of groups for the GroupNorm must be greater than 2"
  else
    Except.ok g

/-- Elementwise addition of two tensors; no broadcasting is needed at the
call modelled here, where mask and weights share a shape. -/
def tensorAdd (a b : NDTensor) : NDTensor :=
  { shape := a.shape, data := fun ix => a.data ix + b.data ix }

/-- rotate_half (modeling_clvp.py lines 68-72): negate the second half of the
last dimension and swap the two halves. -/
def rotate_half (x : List ℚ) : List ℚ :=
  let x1 := x.take (x.length / 2)
  let x2 := x.drop (x.length / 2)
  x2.map (fun a => -a) ++ x1

/-- apply_rotary_pos_emb (modeling_clvp.py lines 75-101) acting on one
position of the query, key and value tensors; cos and sin are the rotary
vectors already selected for that position (the cos[position_ids] indexing
and unsqueeze broadcast of the source). -/
def apply_rotary_pos_emb (q k v cos sin : List ℚ) :
    List ℚ × List ℚ × List ℚ :=
  let q_embed := List.zipWith (fun a b => a + b)
    (List.zipWith (fun a b => a * b) q cos)
    (List.zipWith (fun a b => a * b) (rotate_half q) sin)
  let k_embed := List.zipWith (fun a b => a + b)
    (List.zipWith (fun a b => a * b) k cos)
    (List.zipWith (fun a b => a * b) (rotate_half k) sin)
  let v_embed := List.zipWith (fun a b => a + b)
    (List.zipWith (fun a b => a * b) v cos)
    (List.zipWith (fun a b => a * b) (rotate_half v) sin)
  (q_embed, k_embed, v_embed)

/-- The rotary rotation formula named by the spec: x*cos + rotate_half(x)*sin
applied elementwise. -/
def rotaryFormula (x cos sin : List ℚ) : List ℚ :=
  List.zipWith (fun a b => a + b)
    (List.zipWith (fun a b => a * b) x cos)
    (List.zipWith (fun a b => a * b) (rotate_half x) sin)

/-- The partial-rotary step of ClvpSelfAttention.forward (modeling_clvp.py
lines 356-380) on one position: split each of the query, key and value
states at rotary_emb_dim, rotate the first parts with apply_rotary_pos_emb,
and concatenate each rotated part with its pass-through part. -/
def ClvpSelfAttention.rotaryStep (rotary_emb_dim : Nat)
    (query_states key_states value_states cos sin : List ℚ) :
    List ℚ × List ℚ × List ℚ :=
  let query_rot := query_states.take rotary_emb_dim
  let query_pass := query_states.drop rotary_emb_dim
  let key_rot := key_states.take rotary_emb_dim
  let key_pass := key_states.drop rotary_emb_dim
  let value_rot := value_states.take rotary_emb_dim
  let value_pass := value_states.drop rotary_emb_dim
  let r := apply_rotary_pos_emb query_rot key_rot value_rot cos sin
  (r.1 ++ query_pass, r.2.1 ++ key_pass, r.2.2 ++ value_pass)

/-- The attention-mask application inside ClvpSelfAttention.forward
(modeling_clvp.py lines 386-393): a present mask must have shape
(bsz, 1, tgt_len, src_len) or a ValueError is raised; otherwise the mask is
added to the attention weights and softmax runs afterwards.  The softmax
kernel is an external framework operator and is taken as a parameter. -/
def ClvpSelfAttention.maskAndSoftmax (softmaxLastDim : NDTensor → NDTensor)
    (bsz tgt_len src_len : Nat) (attn_weights : NDTensor)
    (attention_mask : Option NDTensor) : Except String NDTensor :=
  match attention_mask with
  | none => Except.ok (softmaxLastDim attn_weights)
  | some m =>
      if m.shape ≠ [bsz, 1, tgt_len, src_len] then
        Except.error "Attention mask should be of size bsz, 1, tgt_len, src_len"
      else
        Except.ok (softmaxLastDim (tensorAdd attn_weights m))

/-- ClvpModelForConditionalGeneration.generate (modeling_clvp.py lines
1822-1830): its first statement compares the last dimension of input_ids
with max_text_tokens - 3 and raises a ValueError before anything else runs.
The conditioning encoder and the speech decoder generation that follow are
taken as parameters. -/
def ClvpModelForConditionalGeneration.generate {α β : Type}
    (max_text_tokens : Int) (input_ids : NDTensor)
    (conditioning_encoder : NDTensor → α) (speech_decoder_generate : α → β) :
    Except String β :=
  let sequence_length : Int := (input_ids.shape.getLastD 0 : Nat)
  if sequence_length > max_text_tokens - 3 then
    Except.error "Maximum sequence length reached!"
  else
    Except.ok (speech_decoder_generate (conditioning_encoder input_ids))

/-- Transpose of a rank-two tensor (the .t() call in clvp_loss). -/
def Matrix2.transpose (m : Matrix2) : Matrix2 :=
  { rows := m.cols, cols := m.rows, data := fun i j => m.data j i }

/-- contrastive_loss (modeling_clvp.py lines 56-57): cross-entropy of the
logit matrix against the diagonal targets arange(len(logits)).  The
cross-entropy kernel is an external framework operator and is taken as a
parameter. -/
def contrastive_loss (cross_entropy : Matrix2 → List Nat → ℚ) (logits : Matrix2) : ℚ :=
  cross_entropy logits (List.range logits.rows)

/-- clvp_loss (modeling_clvp.py lines 61-64): the mean of the caption-side
and the speech-side contrastive losses. -/
def clvp_loss (cross_entropy : Matrix2 → List Nat → ℚ) (similarity : Matrix2) : ℚ :=
  let caption_loss := contrastive_loss cross_entropy similarity
  let speech_loss := contrastive_loss cross_entropy similarity.transpose
  (caption_loss + speech_loss) / 2

/-- Cache-free computation of the rotary positional embedding for a given
sequence length (modeling_clvp.py lines 275-279): freqs has entries
i * inv_freq[j], and the embedding concatenates freqs with itself along the
last dimension.  The leading batch dimension of size 1 added by unsqueeze(0)
is left implicit. -/
def computeRotaryEmbedding (inv_freq : List ℚ) (sequence_length : Nat) : Matrix2 :=
  { rows := sequence_length
    cols := 2 * inv_freq.length
    data := fun i j =>
      if j < inv_freq.length then (i : ℚ) * inv_freq.getD j 0
      else (i : ℚ) * inv_freq.getD (j - inv_freq.length) 0 }

/-- The state of a ClvpRotaryPositionalEmbedding module: the inv_freq buffer
and the two cache slots (modeling_clvp.py lines 257-266). -/
structure ClvpRotaryPositionalEmbedding where
  inv_freq : List ℚ
  cached_sequence_length : Option Nat
  cached_rotary_positional_embedding : Option Matrix2

/-- A freshly constructed ClvpRotaryPositionalEmbedding: both cache slots
hold None. -/
def ClvpRotaryPositionalEmbedding.init (inv_freq : List ℚ) :
    ClvpRotaryPositionalEmbedding :=
  { inv_freq := inv_freq
    cached_sequence_length := none
    cached_rotary_positional_embedding := none }

/-- ClvpRotaryPositionalEmbedding.forward (modeling_clvp.py lines 268-280):
return the cached embedding when the cached sequence length equals
hidden_states.shape[1] and a cached value exists; otherwise recompute from
inv_freq and refill both cache slots.  The mutable module state is made
explicit: the output and the updated state are returned. -/
def ClvpRotaryPositionalEmbedding.forward (self : ClvpRotaryPositionalEmbedding)
    (hidden_states : Tensor3) : Matrix2 × ClvpRotaryPositionalEmbedding :=
  let sequence_length := hidden_states.d1
  match self.cached_sequence_length, self.cached_rotary_positional_embedding with
  | some n, some cached =>
      if sequence_length = n then (cached, self)
      else
        let embeddings := computeRotaryEmbedding self.inv_freq sequence_length
        (embeddings,
          { inv_freq := self.inv_freq
            cached_sequence_length := some sequence_length
            cached_rotary_positional_embedding := some embeddings })
  | _, _ =>
      let embeddings := computeRotaryEmbedding self.inv_freq sequence_length
      (embeddings,
        { inv_freq := self.inv_freq
          cached_sequence_length := some sequence_length
          cached_rotary_positional_embedding := some embeddings })

/-- The cache-free variant of the rotary forward, following the words of the
claim: always recompute from inv_freq for the current sequence length and
leave the state untouched. -/
def ClvpRotaryPositionalEmbedding.forwardNoCache
    (self : ClvpRotaryPositionalEmbedding) (hidden_states : Tensor3) :
    Matrix2 × ClvpRotaryPositionalEmbedding :=
  (computeRotaryEmbedding self.inv_freq hidden_states.d1, self)

/-- Run a sequence of forward calls, threading the cache state. -/
def runRotary (self : ClvpRotaryPositionalEmbedding) :
    List Tensor3 → List Matrix2 × ClvpRotaryPositionalEmbedding
  | [] => ([], self)
  | hs :: rest =>
      let step := self.forward hs
      let r := runRotary step.2 rest
      (step.1 :: r.1, r.2)

/-- Run a sequence of cache-free forward calls. -/
def runRotaryNoCache (self : ClvpRotaryPositionalEmbedding) :
    List Tensor3 → List Matrix2 × ClvpRotaryPositionalEmbedding
  | [] => ([], self)
  | hs :: rest =>
      let step := self.forwardNoCache hs
      let r := runRotaryNoCache step.2 rest
      (step.1 :: r.1, r.2)

/-- Cache consistency: whatever the cache holds is the embedding recomputed
from inv_freq at the cached sequence length. -/
def RotaryCacheConsistent (s : ClvpRotaryPositionalEmbedding) : Prop :=
  ∀ emb, s.cached_rotary_positional_embedding = some emb →
    ∃ n, s.cached_sequence_length = some n ∧
      emb = computeRotaryEmbedding s.inv_freq n

/-- Modelled from the spec: chroma_filter_bank lives in
mindnlp.transformers.audio_utils, which is not part of the given sources.
The spec describes the chroma feature as a 12-bin audio representation
summarizing pitch-class energy; accordingly the filter bank is a matrix with
num_chroma chroma rows and num_frequency_bins frequency columns, the layout
the einsum cf,...ft->...ct in _ms_extract_fbank_features consumes.  The
numeric weights are not specified by the spec and are taken as a
parameter. -/
def chroma_filter_bank (num_frequency_bins num_chroma : Nat)
    (weights : Nat → Nat → ℚ) : Matrix2 :=
  { rows := num_chroma, cols := num_frequency_bins, data := weights }

/-- The fields of MusicgenMelodyFeatureExtractor relevant to feature
extraction (feature_extraction_musicgen_melody.py lines 79-135). -/
structure MusicgenMelodyFeatureExtractor where
  feature_size : Nat
  sampling_rate : Nat
  hop_length : Nat
  chunk_length : Nat
  n_fft : Nat
  num_chroma : Nat
  padding_value : ℚ
  n_samples : Nat
  chroma_filters : Matrix2
  stem_indices : List Nat

/-- MusicgenMelodyFeatureExtractor construction
(feature_extraction_musicgen_melody.py lines 79-135): store the scalar
hyperparameters, derive n_samples, and build the chroma filter bank with
n_fft frequency bins and num_chroma chroma bins. -/
def MusicgenMelodyFeatureExtractor.construct
    (feature_size sampling_rate hop_length chunk_length n_fft num_chroma : Nat)
    (padding_value : ℚ) (weights : Nat → Nat → ℚ) (stem_indices : List Nat) :
    MusicgenMelodyFeatureExtractor :=
  { feature_size := feature_size
    sampling_rate := sampling_rate
    hop_length := hop_length
    chunk_length := chunk_length
    n_fft := n_fft
    num_chroma := num_chroma
    padding_value := padding_value
    n_samples := chunk_length * sampling_rate
    chroma_filters := chroma_filter_bank n_fft num_chroma weights
    stem_indices := stem_indices }

/-- The default configuration of MusicgenMelodyFeatureExtractor:
feature_size 12, sampling_rate 32000, hop_length 4096, chunk_length 30,
n_fft 16384, num_chroma 12, padding_value 0, stem_indices [3, 2]. -/
def MusicgenMelodyFeatureExtractor.defaultConfig (weights : Nat → Nat → ℚ) :
    MusicgenMelodyFeatureExtractor :=
  MusicgenMelodyFeatureExtractor.construct 12 32000 4096 30 16384 12 0 weights [3, 2]

/-- The wave padding at the start of _ms_extract_fbank_features
(feature_extraction_musicgen_melody.py lines 141-146): a waveform shorter
than n_fft is zero-padded to length n_fft, half in front and half (plus the
odd remainder) behind. -/
def padWaveform (n_fft : Nat) (w : Matrix2) : Matrix2 :=
  if w.cols < n_fft then
    { rows := w.rows
      cols := n_fft
      data := fun b i =>
        let front := (n_fft - w.cols) / 2
        if i < front then 0
        else if i < front + w.cols then w.data b (i - front)
        else 0 }
  else w

/-- The einsum cf,...ft->...ct of _ms_extract_fbank_features (line 152):
contract the frequency axis of the spectrogram against the chroma filter
bank. -/
def einsumCfBft (filters : Matrix2) (spec : Tensor3) : Tensor3 :=
  { batch := spec.batch
    d1 := filters.rows
    d2 := spec.d2
    data := fun b c t =>
      ((List.range filters.cols).map (fun f => filters.data c f * spec.data b f t)).sum }

/-- Maximum of a list of rationals, with 0 for the empty list; used for the
infinity norm of a nonnegative-normed vector. -/
def listMaxQ (l : List ℚ) : ℚ := l.foldr max 0

/-- The normalize call of _ms_extract_fbank_features (line 155):
p = infinity, dim = -2 (the chroma axis of the (batch, chroma, time)
tensor), eps-clamped in the denominator as in the framework kernel. -/
def normalizeInfDim1 (eps : ℚ) (x : Tensor3) : Tensor3 :=
  { batch := x.batch
    d1 := x.d1
    d2 := x.d2
    data := fun b c t =>
      x.data b c t / max (listMaxQ ((List.range x.d1).map (fun i => |x.data b i t|))) eps }

/-- swapaxes(1, 2) on a rank-three tensor (line 158). -/
def Tensor3.swapaxes12 (x : Tensor3) : Tensor3 :=
  { batch := x.batch, d1 := x.d2, d2 := x.d1, data := fun b t c => x.data b c t }

/-- The entries of one (batch, time) frame along the last (chroma) axis. -/
def frameList (x : Tensor3) (b t : Nat) : List ℚ :=
  (List.range x.d2).map (fun c => x.data b t c)

/-- Index of the first maximal element of a list, the argmax convention of
the framework argmax kernel (line 161). -/
def argmaxIdx : List ℚ → Nat
  | [] => 0
  | [_] => 0
  | x :: y :: rest =>
      let j := argmaxIdx (y :: rest)
      if (y :: rest).getD j 0 > x then j + 1 else 0

/-- The scatter of ones along the last axis (line 163), applied to an index
tensor with final dimension 1 as produced by argmax with keepdims: position
idx of each frame receives 1, all other positions keep their value. -/
def scatterLastOnes (x : Tensor3) (idx : Nat → Nat → Nat) : Tensor3 :=
  { batch := x.batch
    d1 := x.d1
    d2 := x.d2
    data := fun b t c => if c = idx b t then 1 else x.data b t c }

/-- The normalised chroma of _ms_extract_fbank_features (lines 141-158):
pad the waveform, take the power spectrogram (an external framework kernel,
taken as a parameter), contract against the chroma filters, normalize with
the infinity norm along the chroma axis, and swap time and chroma axes. -/
def MusicgenMelodyFeatureExtractor.normChroma (self : MusicgenMelodyFeatureExtractor)
    (spectrogram : Matrix2 → Tensor3) (waveform : Matrix2) : Tensor3 :=
  let waveform := padWaveform self.n_fft waveform
  let spec := spectrogram waveform
  let raw_chroma := einsumCfBft self.chroma_filters spec
  let norm_chroma := normalizeInfDim1 (1 / 1000000) raw_chroma
  norm_chroma.swapaxes12

/-- MusicgenMelodyFeatureExtractor._ms_extract_fbank_features
(feature_extraction_musicgen_melody.py lines 137-165): the normalised chroma
followed by the one-hot step -- zero everything, then scatter a 1 at the
argmax of each (batch, time) frame. -/
def MusicgenMelodyFeatureExtractor.ms_extract_fbank_features
    (self : MusicgenMelodyFeatureExtractor) (spectrogram : Matrix2 → Tensor3)
    (waveform : Matrix2) : Tensor3 :=
  let norm_chroma := self.normChroma spectrogram waveform
  let idx := fun b t => argmaxIdx (frameList norm_chroma b t)
  let zeroed : Tensor3 :=
    { batch := norm_chroma.batch
      d1 := norm_chroma.d1
      d2 := norm_chroma.d2
      data := fun _ _ _ => 0 }
  scatterLastOnes zeroed idx

/-- The input_features field produced by MusicgenMelodyFeatureExtractor
call (lines 316-330): the batch is padded by the inherited
SequenceFeatureExtractor.pad, which is repository code outside the given
sources and is taken as a parameter, and input_features is set to
_ms_extract_fbank_features of the padded batch. -/
def MusicgenMelodyFeatureExtractor.callInputFeatures
    (self : MusicgenMelodyFeatureExtractor) (pad : Matrix2 → Matrix2)
    (spectrogram : Matrix2 → Tensor3) (audio : Matrix2) : Tensor3 :=
  self.ms_extract_fbank_features spectrogram (pad audio)

/-- C1: in each CLVP forward method, providing both input_ids and
inputs_embeds raises a ValueError, providing neither raises a ValueError, and
providing exactly one passes this check. -/
theorem clvp_forward_input_exclusivity (a b : Option NDTensor) :
    errRaised (ClvpConditioningEncoder.forwardInputCheck a b)
        = (a.isSome && b.isSome || a.isNone && b.isNone) ∧
    errRaised (ClvpEncoder.forwardInputCheck a b)
        = (a.isSome && b.isSome || a.isNone && b.isNone) ∧
    errRaised (ClvpDecoder.forwardInputCheck a b)
        = (a.isSome && b.isSome || a.isNone && b.isNone) := by
  cases a <;> cases b <;>
    simp [ClvpConditioningEncoder.forwardInputCheck, ClvpEncoder.forwardInputCheck,
      ClvpDecoder.forwardInputCheck, errRaised]

/-- C2: constructing a LlavaConfig with a vision_feature_select_strategy
outside the two admissible values raises a ValueError; for each admissible
value the check passes and the value is stored unchanged. -/
theorem llava_config_strategy_check (ii iti : Int) (pha s : String) (vfl : Int) :
    (s ∉ (["default", "full"] : List String) →
      LlavaConfig.construct ii iti pha s vfl =
        Except.error "vision_feature_select_strategy should be one of default, full.") ∧
    (s ∈ (["default", "full"] : List String) →
      ∃ cfg, LlavaConfig.construct ii iti pha s vfl = Except.ok cfg ∧
        cfg.vision_feature_select_strategy = s) := by
  constructor
  · intro h
    simp [LlavaConfig.construct, h]
  · intro h
    refine ⟨{ ignore_index := ii, image_token_index := iti, projector_hidden_act := pha,
              vision_feature_select_strategy := s, vision_feature_layer := vfl }, ?_, rfl⟩
    simp [LlavaConfig.construct, h]

/-- Witness for C2 at the concrete strategy value "full". -/
theorem llava_config_strategy_check_witness :
    ∃ cfg, LlavaConfig.construct (-100) 32000 "gelu" "full" (-2) = Except.ok cfg ∧
      cfg.vision_feature_select_strategy = "full" :=
  (llava_config_strategy_check (-100) 32000 "gelu" "full" (-2)).2 (by decide)

/-- The halving loop, started anywhere at or above 1, ends at a group count
at least 1 that divides the channel count. -/
theorem groupnormHalve_pos_dvd (channels : Nat) :
    ∀ g, 1 ≤ g → 1 ≤ groupnormHalve channels g ∧ channels % groupnormHalve channels g = 0 := by
  intro g
  induction g using Nat.strong_induction_on with
  | _ g ih =>
    intro hg
    match g, hg with
    | g + 1, _ =>
      rw [groupnormHalve]
      by_cases hdvd : channels % (g + 1) = 0
      · rw [if_pos hdvd]
        exact ⟨by omega, hdvd⟩
      · rw [if_neg hdvd]
        have hg1 : g + 1 ≠ 1 := by
          intro h1
          rw [h1] at hdvd
          simp [Nat.mod_one] at hdvd
        have hge : 1 ≤ (g + 1) / 2 := by omega
        have hlt : (g + 1) / 2 < g + 1 := Nat.div_lt_self (by omega) (by omega)
        exact ih ((g + 1) / 2) hlt hge

/-- C9: for every positive channel count, compute_groupnorm_groups
terminates -- each loop iteration strictly decreases the group count -- and
either returns a group count above 2 dividing channels, or raises a
ValueError when the halving bottoms out at 2 or below. -/
theorem compute_groupnorm_groups_spec (channels : Nat) (hpos : 0 < channels) :
    (∀ g, 0 < g → channels % g ≠ 0 →
        groupnormHalve channels g = groupnormHalve channels (g / 2) ∧ g / 2 < g) ∧
    ((∃ g, compute_groupnorm_groups channels 32 = Except.ok g ∧ 2 < g ∧ channels % g = 0) ∨
      compute_groupnorm_groups channels 32 =
        Except.error "Number of groups for the GroupNorm must be greater than 2") := by
  constructor
  · intro g hg hdvd
    constructor
    · match g, hg with
      | g + 1, _ =>
        rw [groupnormHalve]
        simp [hdvd]
    · exact Nat.div_lt_self hg (by omega)
  · have hg0 : 1 ≤ (if channels ≤ 16 then 8 else if channels ≤ 64 then 16 else (32 : Nat)) := by
      by_cases h1 : channels ≤ 16
      · simp [h1]
      · by_cases h2 : channels ≤ 64 <;> simp [h1, h2]
    have h := groupnormHalve_pos_dvd channels
      (if channels ≤ 16 then 8 else if channels ≤ 64 then 16 else 32) hg0
    by_cases hle : groupnormHalve channels
        (if channels ≤ 16 then 8 else if channels ≤ 64 then 16 else 32) ≤ 2
    · right
      simp only [compute_groupnorm_groups]
      rw [if_pos hle]
    · left
      refine ⟨_, ?_, by omega, h.2⟩
      simp only [compute_groupnorm_groups]
      rw [if_neg hle]

/-- Witness for C9 at channels = 24: the loop runs 16 to 8, which divides 24
and is returned. -/
theorem compute_groupnorm_groups_spec_witness :
    0 < 24 ∧
    ((∀ g, 0 < g → 24 % g ≠ 0 →
        groupnormHalve 24 g = groupnormHalve 24 (g / 2) ∧ g / 2 < g) ∧
    ((∃ g, compute_groupnorm_groups 24 32 = Except.ok g ∧ 2 < g ∧ 24 % g = 0) ∨
      compute_groupnorm_groups 24 32 =
        Except.error "Number of groups for the GroupNorm must be greater than 2")) :=
  ⟨by decide, compute_groupnorm_groups_spec 24 (by decide)⟩

/-- C3: generate raises a ValueError -- before the conditioning encoder or
the decoder is invoked, whatever those computations are -- whenever the last
dimension of input_ids exceeds max_text_tokens - 3; for lengths within that
limit the check passes and generation proceeds. -/
theorem clvp_generate_length_check {α β : Type} (max_text_tokens : Int)
    (input_ids : NDTensor) :
    (((input_ids.shape.getLastD 0 : Int) > max_text_tokens - 3) →
      ∀ (f : NDTensor → α) (g : α → β),
        ClvpModelForConditionalGeneration.generate max_text_tokens input_ids f g =
          Except.error "Maximum sequence length reached!") ∧
    (((input_ids.shape.getLastD 0 : Int) ≤ max_text_tokens - 3) →
      ∀ (f : NDTensor → α) (g : α → β),
        ClvpModelForConditionalGeneration.generate max_text_tokens input_ids f g =
          Except.ok (g (f input_ids))) := by
  constructor <;> intro h f g <;>
    simp only [ClvpModelForConditionalGeneration.generate]
  · rw [if_pos h]
  · rw [if_neg (not_lt.mpr h)]

/-- Witness for C3: a sequence of length 5 against a limit of 10 - 3; the
check passes and the continuation runs. -/
theorem clvp_generate_length_check_witness :
    (((NDTensor.mk [1, 5] (fun _ => 0)).shape.getLastD 0 : Int) ≤ 10 - 3) ∧
    ClvpModelForConditionalGeneration.generate 10 (NDTensor.mk [1, 5] (fun _ => 0))
        (fun t => t) (fun (t : NDTensor) => t) =
      Except.ok (NDTensor.mk [1, 5] (fun _ => 0)) :=
  ⟨by decide,
    (clvp_generate_length_check 10 (NDTensor.mk [1, 5] (fun _ => 0))).2 (by decide)
      (fun t => t) (fun t => t)⟩

/-- C4 counterexample: the rotary step of ClvpSelfAttention.forward does not
leave the value states unchanged -- at query = key = value = [1, 2] with
cos = sin = [1, 1] the value states come out as [-1, 3]. -/
theorem clvp_rotary_value_not_passthrough :
    (ClvpSelfAttention.rotaryStep 2 [1, 2] [1, 2] [1, 2] [1, 1] [1, 1]).2.2 ≠ [1, 2] := by
  norm_num [ClvpSelfAttention.rotaryStep, apply_rotary_pos_emb, rotate_half]

/-- C4 (amended): apply_rotary_pos_emb rotates the query states to
q*cos + rotate_half(q)*sin and the key states to k*cos + rotate_half(k)*sin,
and it also rotates the value states, by the same formula
v*cos + rotate_half(v)*sin; in ClvpSelfAttention.forward the first
rotary_emb_dim coordinates of query, key and value states are all rotated
this way while the remaining coordinates pass through unchanged. -/
theorem clvp_rotary_rotates_query_key_value (d : Nat)
    (q k v qs ks vs cos sin : List ℚ) :
    apply_rotary_pos_emb q k v cos sin =
      (rotaryFormula q cos sin, rotaryFormula k cos sin, rotaryFormula v cos sin) ∧
    ClvpSelfAttention.rotaryStep d qs ks vs cos sin =
      (rotaryFormula (qs.take d) cos sin ++ qs.drop d,
       rotaryFormula (ks.take d) cos sin ++ ks.drop d,
       rotaryFormula (vs.take d) cos sin ++ vs.drop d) :=
  ⟨rfl, rfl⟩

/-- C5: a non-None attention mask whose shape differs from
(bsz, 1, tgt_len, src_len) makes ClvpSelfAttention.forward raise a
ValueError; with exactly that shape the error branch is not taken and the
mask is added to the attention weights before softmax is applied. -/
theorem clvp_attention_mask_shape_check (softmaxLastDim : NDTensor → NDTensor)
    (bsz tgt_len src_len : Nat) (attn_weights m : NDTensor) :
    (m.shape ≠ [bsz, 1, tgt_len, src_len] →
      ClvpSelfAttention.maskAndSoftmax softmaxLastDim bsz tgt_len src_len attn_weights (some m) =
        Except.error "Attention mask should be of size bsz, 1, tgt_len, src_len") ∧
    (m.shape = [bsz, 1, tgt_len, src_len] →
      ClvpSelfAttention.maskAndSoftmax softmaxLastDim bsz tgt_len src_len attn_weights (some m) =
        Except.ok (softmaxLastDim (tensorAdd attn_weights m))) := by
  constructor <;> intro h <;> simp [ClvpSelfAttention.maskAndSoftmax, h]

/-- Witness for C5: a mask of the demanded shape (1, 1, 1, 1) passes the
check and is added to the weights before softmax. -/
theorem clvp_attention_mask_shape_check_witness :
    (NDTensor.mk [1, 1, 1, 1] (fun _ => 1)).shape = [1, 1, 1, 1] ∧
    ClvpSelfAttention.maskAndSoftmax (fun t => t) 1 1 1
        (NDTensor.mk [1, 1, 1, 1] (fun _ => 0))
        (some (NDTensor.mk [1, 1, 1, 1] (fun _ => 1))) =
      Except.ok (tensorAdd (NDTensor.mk [1, 1, 1, 1] (fun _ => 0))
        (NDTensor.mk [1, 1, 1, 1] (fun _ => 1))) :=
  ⟨rfl,
    (clvp_attention_mask_shape_check (fun t => t) 1 1 1
      (NDTensor.mk [1, 1, 1, 1] (fun _ => 0))
      (NDTensor.mk [1, 1, 1, 1] (fun _ => 1))).2 rfl⟩

/-- On a consistent cache state, forward returns the embedding freshly
recomputed from inv_freq at the current sequence length. -/
theorem rotary_forward_fst (s : ClvpRotaryPositionalEmbedding) (hs : Tensor3)
    (h : RotaryCacheConsistent s) :
    (s.forward hs).1 = computeRotaryEmbedding s.inv_freq hs.d1 := by
  rcases h1 : s.cached_sequence_length with _ | n
  · simp [ClvpRotaryPositionalEmbedding.forward, h1]
  · rcases h2 : s.cached_rotary_positional_embedding with _ | cached
    · simp [ClvpRotaryPositionalEmbedding.forward, h1, h2]
    · simp only [ClvpRotaryPositionalEmbedding.forward, h1, h2]
      by_cases he : hs.d1 = n
      · rw [if_pos he]
        obtain ⟨n', hn', hc⟩ := h cached h2
        rw [h1] at hn'
        injection hn' with hnn
        subst hnn
        rw [hc, he]
      · rw [if_neg he]

/-- The state left by forward is either the unchanged input state (cache
hit) or the state whose cache holds the fresh recomputation. -/
theorem rotary_forward_snd_eq (s : ClvpRotaryPositionalEmbedding) (hs : Tensor3) :
    (s.forward hs).2 = s ∨
    (s.forward hs).2 =
      { inv_freq := s.inv_freq
        cached_sequence_length := some hs.d1
        cached_rotary_positional_embedding :=
          some (computeRotaryEmbedding s.inv_freq hs.d1) } := by
  rcases h1 : s.cached_sequence_length with _ | n
  · right
    simp [ClvpRotaryPositionalEmbedding.forward, h1]
  · rcases h2 : s.cached_rotary_positional_embedding with _ | cached
    · right
      simp [ClvpRotaryPositionalEmbedding.forward, h1, h2]
    · simp only [ClvpRotaryPositionalEmbedding.forward, h1, h2]
      by_cases he : hs.d1 = n
      · rw [if_pos he]
        left
        rfl
      · rw [if_neg he]
        right
        rfl

/-- Forward preserves cache consistency and the inv_freq buffer. -/
theorem rotary_forward_snd (s : ClvpRotaryPositionalEmbedding) (hs : Tensor3)
    (h : RotaryCacheConsistent s) :
    RotaryCacheConsistent (s.forward hs).2 ∧ (s.forward hs).2.inv_freq = s.inv_freq := by
  rcases rotary_forward_snd_eq s hs with heq | heq <;> rw [heq]
  · exact ⟨h, rfl⟩
  · exact ⟨fun emb hemb => ⟨hs.d1, rfl, by injection hemb with h3; exact h3.symm⟩, rfl⟩

/-- Over any call history from a consistent state, the cached forward
produces exactly the cache-free recomputations. -/
theorem runRotary_fst (calls : List Tensor3) :
    ∀ s : ClvpRotaryPositionalEmbedding, RotaryCacheConsistent s →
      (runRotary s calls).1 =
        calls.map (fun hs => computeRotaryEmbedding s.inv_freq hs.d1) := by
  induction calls with
  | nil => intro s _; simp [runRotary]
  | cons hs rest ih =>
      intro s h
      simp only [runRotary, List.map]
      rw [rotary_forward_fst s hs h, ih _ (rotary_forward_snd s hs h).1,
        (rotary_forward_snd s hs h).2]

/-- The cache-free run is the pointwise recomputation. -/
theorem runRotaryNoCache_fst (calls : List Tensor3)
    (s : ClvpRotaryPositionalEmbedding) :
    (runRotaryNoCache s calls).1 =
      calls.map (fun hs => computeRotaryEmbedding s.inv_freq hs.d1) := by
  induction calls generalizing s with
  | nil => simp [runRotaryNoCache]
  | cons hs rest ih =>
      simp only [runRotaryNoCache, List.map, ClvpRotaryPositionalEmbedding.forwardNoCache]
      rw [ih s]

/-- C8: the sequence-length cache of ClvpRotaryPositionalEmbedding.forward
is transparent: over every sequence of calls from a fresh module, each
output equals the embedding recomputed from inv_freq for that input
sequence length (and therefore depends only on hidden_states.shape[1]), and
the cached run is extensionally equal to the cache-free run. -/
theorem rotary_cache_transparent (inv_freq : List ℚ) (calls : List Tensor3) :
    (runRotary (ClvpRotaryPositionalEmbedding.init inv_freq) calls).1 =
      calls.map (fun hs => computeRotaryEmbedding inv_freq hs.d1) ∧
    (runRotary (ClvpRotaryPositionalEmbedding.init inv_freq) calls).1 =
      (runRotaryNoCache (ClvpRotaryPositionalEmbedding.init inv_freq) calls).1 := by
  have hinit : RotaryCacheConsistent (ClvpRotaryPositionalEmbedding.init inv_freq) := by
    intro emb hemb
    simp [ClvpRotaryPositionalEmbedding.init] at hemb
  have h1 := runRotary_fst calls (ClvpRotaryPositionalEmbedding.init inv_freq) hinit
  have h2 := runRotaryNoCache_fst calls (ClvpRotaryPositionalEmbedding.init inv_freq)
  exact ⟨h1, by rw [h1, h2]⟩

/-- C6: the modelled forward computations are deterministic: clvp_loss and
apply_rotary_pos_emb give equal outputs on equal inputs, and the one
stateful computation -- the rotary embedding with its cache -- returns on a
repeated forward call the same output as the call before it. -/
theorem clvp_pipelines_deterministic :
    (∀ cross_entropy (s₁ s₂ : Matrix2), s₁ = s₂ →
      clvp_loss cross_entropy s₁ = clvp_loss cross_entropy s₂) ∧
    (∀ q₁ k₁ v₁ c₁ s₁ q₂ k₂ v₂ c₂ s₂ : List ℚ,
      q₁ = q₂ → k₁ = k₂ → v₁ = v₂ → c₁ = c₂ → s₁ = s₂ →
      apply_rotary_pos_emb q₁ k₁ v₁ c₁ s₁ = apply_rotary_pos_emb q₂ k₂ v₂ c₂ s₂) ∧
    (∀ (st : ClvpRotaryPositionalEmbedding) (hs : Tensor3),
      (st.forward hs).1 = ((st.forward hs).2.forward hs).1) := by
  refine ⟨fun ce s₁ s₂ h => by rw [h], ?_, ?_⟩
  · intro q₁ k₁ v₁ c₁ s₁ q₂ k₂ v₂ c₂ s₂ h1 h2 h3 h4 h5
    rw [h1, h2, h3, h4, h5]
  · intro st hs
    rcases h1 : st.cached_sequence_length with _ | n
    · simp [ClvpRotaryPositionalEmbedding.forward, h1]
    · rcases h2 : st.cached_rotary_positional_embedding with _ | cached
      · simp [ClvpRotaryPositionalEmbedding.forward, h1, h2]
      · simp only [ClvpRotaryPositionalEmbedding.forward, h1, h2]
        by_cases he : hs.d1 = n
        · rw [if_pos he]
          simp only [ClvpRotaryPositionalEmbedding.forward, h1, h2]
          rw [if_pos he]
        · rw [if_neg he]
          simp [ClvpRotaryPositionalEmbedding.forward]

/-- Witness for C6 at concrete equal inputs. -/
theorem clvp_pipelines_deterministic_witness :
    clvp_loss (fun _ _ => 0) (Matrix2.mk 1 1 (fun _ _ => 0)) =
      clvp_loss (fun _ _ => 0) (Matrix2.mk 1 1 (fun _ _ => 0)) ∧
    apply_rotary_pos_emb [1] [1] [1] [1] [1] =
      apply_rotary_pos_emb [1] [1] [1] [1] [1] :=
  ⟨clvp_pipelines_deterministic.1 (fun _ _ => 0)
      (Matrix2.mk 1 1 (fun _ _ => 0)) (Matrix2.mk 1 1 (fun _ _ => 0)) rfl,
    clvp_pipelines_deterministic.2.1 [1] [1] [1] [1] [1] [1] [1] [1] [1] [1]
      rfl rfl rfl rfl rfl⟩

/-- C7: under the default configuration, the chroma features returned by
_ms_extract_fbank_features, and hence the input_features field returned by
the call method, have exactly 12 bins in the last (chroma) dimension, for
every input waveform, every spectrogram kernel and every filter weight. -/
theorem musicgen_chroma_twelve_bins (weights : Nat → Nat → ℚ)
    (pad : Matrix2 → Matrix2) (spectrogram : Matrix2 → Tensor3)
    (waveform audio : Matrix2) :
    ((MusicgenMelodyFeatureExtractor.defaultConfig weights).ms_extract_fbank_features
        spectrogram waveform).d2 = 12 ∧
    ((MusicgenMelodyFeatureExtractor.defaultConfig weights).callInputFeatures
        pad spectrogram audio).d2 = 12 :=
  ⟨rfl, rfl⟩

/-- The first-maximum index of a nonempty list lies within the list. -/
theorem argmaxIdx_lt_length : ∀ l : List ℚ, l ≠ [] → argmaxIdx l < l.length
  | [], h => absurd rfl h
  | [_], _ => by simp [argmaxIdx]
  | x :: y :: rest, _ => by
      simp only [argmaxIdx]
      by_cases hgt : (y :: rest).getD (argmaxIdx (y :: rest)) 0 > x
      · rw [if_pos hgt]
        have hlt := argmaxIdx_lt_length (y :: rest) (by simp)
        simpa using Nat.succ_lt_succ hlt
      · rw [if_neg hgt]
        simp

/-- C10: every (batch, time) frame of the tensor returned by
_ms_extract_fbank_features is one-hot along the chroma dimension: the entry
at the argmax position of the normalised chroma equals 1 and every other
entry equals 0. -/
theorem musicgen_frames_one_hot (fe : MusicgenMelodyFeatureExtractor)
    (spectrogram : Matrix2 → Tensor3) (waveform : Matrix2) (b t : Nat)
    (hpos : 0 < fe.chroma_filters.rows) :
    argmaxIdx (frameList (fe.normChroma spectrogram waveform) b t) <
      (fe.ms_extract_fbank_features spectrogram waveform).d2 ∧
    (fe.ms_extract_fbank_features spectrogram waveform).data b t
      (argmaxIdx (frameList (fe.normChroma spectrogram waveform) b t)) = 1 ∧
    ∀ c, c < (fe.ms_extract_fbank_features spectrogram waveform).d2 →
      c ≠ argmaxIdx (frameList (fe.normChroma spectrogram waveform) b t) →
      (fe.ms_extract_fbank_features spectrogram waveform).data b t c = 0 := by
  have hlen : (frameList (fe.normChroma spectrogram waveform) b t).length =
      fe.chroma_filters.rows := by
    simp [frameList]
    rfl
  have hne : frameList (fe.normChroma spectrogram waveform) b t ≠ [] := by
    intro hnil
    rw [hnil] at hlen
    simp at hlen
    omega
  have hidx := argmaxIdx_lt_length _ hne
  rw [hlen] at hidx
  refine ⟨hidx, ?_, ?_⟩
  · simp [MusicgenMelodyFeatureExtractor.ms_extract_fbank_features, scatterLastOnes]
  · intro c _ hc
    simp [MusicgenMelodyFeatureExtractor.ms_extract_fbank_features, scatterLastOnes, hc]

/-- Witness for C10 under the default configuration with constant filter
weights, a tiny constant spectrogram kernel and a single-sample waveform. -/
theorem musicgen_frames_one_hot_witness :
    0 < (MusicgenMelodyFeatureExtractor.defaultConfig
        (fun _ _ => 1)).chroma_filters.rows ∧
    argmaxIdx (frameList ((MusicgenMelodyFeatureExtractor.defaultConfig
        (fun _ _ => 1)).normChroma
        (fun _ => Tensor3.mk 1 1 1 (fun _ _ _ => 1)) (Matrix2.mk 1 1 (fun _ _ => 1))) 0 0) <
      ((MusicgenMelodyFeatureExtractor.defaultConfig
        (fun _ _ => 1)).ms_extract_fbank_features
        (fun _ => Tensor3.mk 1 1 1 (fun _ _ _ => 1)) (Matrix2.mk 1 1 (fun _ _ => 1))).d2 ∧
    ((MusicgenMelodyFeatureExtractor.defaultConfig
        (fun _ _ => 1)).ms_extract_fbank_features
        (fun _ => Tensor3.mk 1 1 1 (fun _ _ _ => 1)) (Matrix2.mk 1 1 (fun _ _ => 1))).data 0 0
      (argmaxIdx (frameList ((MusicgenMelodyFeatureExtractor.defaultConfig
        (fun _ _ => 1)).normChroma
        (fun _ => Tensor3.mk 1 1 1 (fun _ _ _ => 1)) (Matrix2.mk 1 1 (fun _ _ => 1))) 0 0)) = 1 ∧
    ∀ c, c < ((MusicgenMelodyFeatureExtractor.defaultConfig
        (fun _ _ => 1)).ms_extract_fbank_features
        (fun _ => Tensor3.mk 1 1 1 (fun _ _ _ => 1)) (Matrix2.mk 1 1 (fun _ _ => 1))).d2 →
      c ≠ argmaxIdx (frameList ((MusicgenMelodyFeatureExtractor.defaultConfig
        (fun _ _ => 1)).normChroma
        (fun _ => Tensor3.mk 1 1 1 (fun _ _ _ => 1)) (Matrix2.mk 1 1 (fun _ _ => 1))) 0 0) →
      ((MusicgenMelodyFeatureExtractor.defaultConfig
        (fun _ _ => 1)).ms_extract_fbank_features
        (fun _ => Tensor3.mk 1 1 1 (fun _ _ _ => 1)) (Matrix2.mk 1 1 (fun _ _ => 1))).data 0 0 c = 0 :=
  ⟨Nat.succ_pos 11,
    musicgen_frames_one_hot (MusicgenMelodyFeatureExtractor.defaultConfig (fun _ _ => 1))
      (fun _ => Tensor3.mk 1 1 1 (fun _ _ _ => 1)) (Matrix2.mk 1 1 (fun _ _ => 1)) 0 0
      (Nat.succ_pos 11)⟩
